import Mathlib

/-!
Shallow embedding of the core of the pylibofp / zof OpenFlow controller
framework (files `pylibofp/controller.py` and `zof/controller.py`), together
with theorems settling the behavioural claims about reply tracking, xid
assignment, phase transitions, start-failure handling, channel bookkeeping,
exception routing and shutdown cleanup.

Python machine integers are modelled as `Nat` (xids wrap by an explicit
branch in the source, not by overflow); timestamps are modelled as `Nat`
seconds (the source only ever compares them and adds a constant).
-/

/-- Association-list lookup modelling Python `dict` access by key. -/
def lookupA {κ α : Type} [DecidableEq κ] : List (κ × α) → κ → Option α
  | [], _ => none
  | (k, v) :: rest, key => if k = key then some v else lookupA rest key

/-- Association-list deletion modelling Python `del d[key]` on a present
key. -/
def eraseA {κ α : Type} [DecidableEq κ] : List (κ × α) → κ → List (κ × α)
  | [], _ => []
  | (k, v) :: rest, key =>
    if k = key then eraseA rest key else (k, v) :: eraseA rest key

/-- Association-list update of an existing key, preserving insertion
order (Python `dict` assignment semantics for a present key). -/
def updateA {κ α : Type} [DecidableEq κ] : List (κ × α) → κ → α → List (κ × α)
  | [], _, _ => []
  | (k, v) :: rest, key, v' =>
    if k = key then (k, v') :: rest else (k, v) :: updateA rest key v'

/-- Association-list insertion-or-update modelling Python `d[key] = v`:
update in place when present, append at the end when new. -/
def setA {κ α : Type} [DecidableEq κ] : List (κ × α) → κ → α → List (κ × α)
  | [], key, v' => [(key, v')]
  | (k, v) :: rest, key, v' =>
    if k = key then (k, v') :: rest else (k, v) :: setA rest key v'

namespace Pylibofp

/-- Constant `_XID_TIMEOUT = 10.0` from controller.py. -/
def XID_TIMEOUT : Nat := 10

/-- Constant `_MIN_XID = 8092` from controller.py. -/
def MIN_XID : Nat := 8092

/-- Constant `_MAX_XID = 0xFFFFFFFF` from controller.py. -/
def MAX_XID : Nat := 0xFFFFFFFF

/-- Constant `_API_VERSION = 1` from controller.py. -/
def API_VERSION : Nat := 1

/-- A reply event as seen by the reply-future machinery: the only fields the
code inspects are `type` and `flags` (in `_event_has_more`); `payload`
distinguishes distinct reply values. A field of `none` models an absent
attribute (access raises `AttributeError`). -/
structure MsgEvent where
  type : Option String := none
  flags : Option (List String) := none
  payload : Nat := 0
  deriving Repr, DecidableEq

/-- Character-list prefix test (the semantics of Python
`str.startswith`). -/
def prefixChars : List Char → List Char → Bool
  | [], _ => true
  | _ :: _, [] => false
  | c :: cs, d :: ds => c = d && prefixChars cs ds

/-- Embeds Python `s.startswith(pre)`. -/
def startsWithStr (s pre : String) : Bool := prefixChars pre.data s.data

/-- Embeds `_event_has_more`: `event.type.startswith('REPLY.') and 'MORE' in
event.flags`, with any `AttributeError` (absent `type`, or absent `flags`
after a successful prefix test) yielding `False`. -/
def event_has_more (e : MsgEvent) : Bool :=
  match e.type with
  | none => false
  | some t =>
    if startsWithStr t "REPLY." then
      match e.flags with
      | none => false
      | some fl => fl.contains "MORE"
    else false

/-- Python exception values reaching a reply future. `RPCException`,
`ErrorException` and `DeliveryException` carry the event they were built
from; `TimeoutException` carries the xid (as in `_idle`). -/
inductive PyExc
  | RPCException (event : MsgEvent)
  | ErrorException (event : MsgEvent)
  | DeliveryException (event : MsgEvent)
  | TimeoutException (xid : Nat)
  deriving Repr, DecidableEq

/-- An entry of a `_ReplyFuture`'s FIFO: either a result value or an
exception stored by `set_exception`. -/
inductive Res
  | value (v : MsgEvent)
  | exc (e : PyExc)
  deriving Repr, DecidableEq

/-- State of a `_ReplyFuture` object: the xid, the `_results` FIFO, whether
an awaiter future is installed (`_future is not None`), and the `_done`
flag. -/
structure ReplyFuture where
  xid : Nat
  results : List Res
  future : Bool
  done_flag : Bool
  deriving Repr, DecidableEq

/-- `_ReplyFuture.__init__`: empty FIFO, no awaiter, not done. -/
def ReplyFuture.fresh (xid : Nat) : ReplyFuture :=
  { xid := xid, results := [], future := false, done_flag := false }

/-- `_ReplyFuture.done()`: `not self._results and self._done`. -/
def ReplyFuture.done (f : ReplyFuture) : Bool :=
  f.results.isEmpty && f.done_flag

/-- `_ReplyFuture.set_done()`: sets the `_done` flag. -/
def ReplyFuture.set_done (f : ReplyFuture) : ReplyFuture :=
  { f with done_flag := true }

/-- Where a delivered result went: appended to the FIFO, or handed to an
installed awaiter (resolving and clearing `_future`). -/
inductive Delivered
  | toFifo
  | toAwaiter (r : Res)
  deriving Repr, DecidableEq

/-- `_ReplyFuture.set_result(result)`: append to `_results` when no awaiter
future is installed, otherwise resolve the future and clear it. -/
def ReplyFuture.set_result (f : ReplyFuture) (v : MsgEvent) : ReplyFuture × Delivered :=
  if f.future then
    ({ f with future := false }, .toAwaiter (.value v))
  else
    ({ f with results := f.results ++ [.value v] }, .toFifo)

/-- `_ReplyFuture.set_exception(exc)`: as `set_result` but stores an
exception. -/
def ReplyFuture.set_exception (f : ReplyFuture) (e : PyExc) : ReplyFuture × Delivered :=
  if f.future then
    ({ f with future := false }, .toAwaiter (.exc e))
  else
    ({ f with results := f.results ++ [.exc e] }, .toFifo)

/-- Outcome of one `await` on a `_ReplyFuture` (its `__await__`, combined
with `_immediate_result` which raises stored exceptions). -/
inductive AwaitOutcome
  | result (v : MsgEvent)
  | raises (e : PyExc)
  | invalidState
  | suspended
  deriving Repr, DecidableEq

/-- `_immediate_result`: awaiting a popped FIFO entry returns a value and
raises a stored exception. -/
def immediate_result : Res → AwaitOutcome
  | .value v => .result v
  | .exc e => .raises e

/-- `_ReplyFuture.__await__`: pop and return the FIFO head if present
(via `_immediate_result`, which raises stored exceptions); otherwise
raise `InvalidStateError` when `_done`; otherwise install a fresh awaiter
future and suspend. -/
def ReplyFuture.awaitOne (f : ReplyFuture) : ReplyFuture × AwaitOutcome :=
  match f.results with
  | r :: rest => ({ f with results := rest }, immediate_result r)
  | [] =>
    if f.done_flag then (f, .invalidState)
    else ({ f with future := true }, .suspended)

/-- Outcome of `_ReplyFuture.__anext__`. -/
inductive AnextOutcome
  | stopIteration
  | step (o : AwaitOutcome)
  deriving Repr, DecidableEq

/-- `_ReplyFuture.__anext__`: raise `StopAsyncIteration` when `done()`,
otherwise `await self`. -/
def ReplyFuture.anext (f : ReplyFuture) : ReplyFuture × AnextOutcome :=
  if f.done then (f, .stopIteration)
  else
    let (f', o) := f.awaitOne
    (f', .step o)

/-- Repeated `await` on a handle, collecting the outcomes in order. -/
def awaitSeq (f : ReplyFuture) : Nat → List AwaitOutcome
  | 0 => []
  | n + 1 =>
    let (f', o) := f.awaitOne
    o :: awaitSeq f' n

/-- The controller's `_reqs` table: xid to (reply future, expiration). -/
abbrev ReqTable := List (Nat × ReplyFuture × Nat)

/-- Registration performed by `_write` when an `xid` is given: create a
`_ReplyFuture`, store it with expiration `now + _XID_TIMEOUT`, return it. -/
def write_register (reqs : ReqTable) (xid : Nat) (now : Nat) : ReqTable × ReplyFuture :=
  let fut := ReplyFuture.fresh xid
  (setA reqs xid (fut, now + XID_TIMEOUT), fut)

/-- The exception classes `_handle_xid` is invoked with
(`RPCException`, `ErrorException`, `DeliveryException`). -/
inductive ExcClass
  | rpc
  | err
  | delivery
  deriving Repr, DecidableEq

/-- Applies an exception class to the triggering event,
as `except_class(event)` does. -/
def ExcClass.make : ExcClass → MsgEvent → PyExc
  | .rpc, e => .RPCException e
  | .err, e => .ErrorException e
  | .delivery, e => .DeliveryException e

/-- Result of `_handle_xid`: the updated table, whether a matching xid was
found, the final state of the matched handle object (which the requester
still holds by alias even after it leaves the table), and where the
delivery went. -/
structure XidOut where
  reqs : ReqTable
  found : Bool
  handle : Option ReplyFuture
  delivered : Option Delivered
  deriving Repr, DecidableEq

/-- Embeds `Controller._handle_xid`: look up the future for `xid`; deliver
the event as result or exception; when the event has no MORE continuation
or an exception class was used, mark the future done and delete the xid
from the table. -/
def handle_xid (reqs : ReqTable) (event : MsgEvent) (xid : Nat) (ec : Option ExcClass) : XidOut :=
  match lookupA reqs xid with
  | none => { reqs := reqs, found := false, handle := none, delivered := none }
  | some (fut, exp) =>
    let step :=
      match ec with
      | some c => fut.set_exception (c.make event)
      | none => fut.set_result event
    let fut1 := step.1
    if !event_has_more event || ec.isSome then
      { reqs := eraseA reqs xid, found := true,
        handle := some fut1.set_done, delivered := some step.2 }
    else
      { reqs := updateA reqs xid (fut1, exp), found := true,
        handle := some fut1, delivered := some step.2 }

/-- Embeds `Controller._idle` (the 1-second timeout sweeper): collect the
entries whose expiration is at or before `now`, deliver a
`TimeoutException` to each and delete it from the table. Returns the
remaining table and the final handle states of the swept entries. Note the
source does not call `set_done` here. -/
def idle (reqs : ReqTable) (now : Nat) : ReqTable × List (Nat × ReplyFuture) :=
  let timedOut := reqs.filter (fun e => e.2.2 ≤ now)
  (reqs.filter (fun e => ¬ e.2.2 ≤ now),
    timedOut.map (fun e => (e.1, (e.2.1.set_exception (.TimeoutException e.1)).1)))

/-- Initial value of `Controller._xid`. -/
def init_xid : Nat := MIN_XID

/-- Embeds `Controller._next_xid`: returns (new counter, assigned xid).
When the counter stands at `_MAX_XID` it is reset to `_MIN_XID` and that
value is returned; otherwise the counter is pre-incremented and the new
value returned. -/
def next_xid (x : Nat) : Nat × Nat :=
  if x = MAX_XID then (MIN_XID, MIN_XID) else (x + 1, x + 1)

/-- The controller's `_tasks` registry: scope key to task ids. -/
abbrev Tasks := List (String × List Nat)

/-- Task ids recorded under one scope key. -/
def scopeTasks (tasks : Tasks) (scope_key : String) : List Nat :=
  (tasks.filter (fun p => p.1 = scope_key)).foldr (fun p acc => p.2 ++ acc) []

/-- All task ids across all scopes. -/
def allTasks (tasks : Tasks) : List Nat :=
  tasks.foldr (fun p acc => p.2 ++ acc) []

/-- Embeds `Controller._cancel_tasks`: tasks receiving a cancel call. A
scope key of `START` or `STOP` cancels every task in every scope; in
addition the tasks under the given scope key are cancelled. -/
def cancel_tasks (tasks : Tasks) (scope_key : String) : List Nat :=
  (if scope_key = "START" ∨ scope_key = "STOP" then allTasks tasks else [])
    ++ scopeTasks tasks scope_key

/-- The controller state read by `_set_phase`: current phase, task
registry, and whether `_event_queue` exists. -/
structure PhaseSt where
  phase : String
  tasks : Tasks
  queueExists : Bool
  deriving Repr, DecidableEq

/-- Result of `_set_phase`: updated state, task ids cancelled, and names of
synthetic events posted. -/
structure SetPhaseOut where
  st : PhaseSt
  cancelled : List Nat
  posted : List String
  deriving Repr, DecidableEq

/-- Embeds `Controller._set_phase`: when the current (previous) phase is
not `PRESTART`, invoke `_cancel_tasks` on it; then store the new phase and
post a synthetic event named after it when the event queue exists. -/
def set_phase (st : PhaseSt) (phase : String) : SetPhaseOut :=
  { st := { st with phase := phase },
    cancelled := if st.phase ≠ "PRESTART" then cancel_tasks st.tasks st.phase else [],
    posted := if st.queueExists then [phase] else [] }

/-- The `OFP.DESCRIPTION` reply fields read by `_get_description`. -/
structure DescResult where
  major_version : Nat
  minor_version : Nat
  ofp_versions : List Nat
  software_version : String
  deriving Repr, DecidableEq

/-- Modelled from the spec: `pylibofp/exception.py` is not under `src/`.
Per the spec's error taxonomy, the framework's failure values (RPC error,
OF error, delivery alert, timeout) are `ControllerException` instances,
which `except _exc.ControllerException` catches; Python's builtin
`ValueError` is not a subclass of the library's `ControllerException`. -/
inductive StartExc
  | controllerExc (info : String)
  | valueError (msg : String)
  deriving Repr, DecidableEq

/-- Whether `except _exc.ControllerException` catches this exception. -/
def StartExc.isControllerException : StartExc → Bool
  | .controllerExc _ => true
  | .valueError _ => false

/-- Embeds `Controller._get_description`: on a failed RPC the exception is
re-raised; on success, a `major_version` above `_API_VERSION` raises the
builtin `ValueError('Unsupported API version')`, otherwise the advertised
OpenFlow versions are recorded. -/
def get_description (reply : Except StartExc DescResult) : Except StartExc (List Nat) :=
  match reply with
  | .error e => .error e
  | .ok result =>
    if result.major_version > API_VERSION then
      .error (.valueError "Unsupported API version")
    else
      .ok result.ofp_versions

/-- Embeds `Controller._configure_tls`: the RPC outcome for
`OFP.ADD_IDENTITY` (carrying `tls_id` on success); failures are logged and
re-raised unchanged. -/
def configure_tls (reply : Except StartExc Nat) : Except StartExc Nat := reply

/-- Embeds `Controller._listen_on_endpoints`: the combined outcome of the
`OFP.LISTEN` calls; failures are logged and re-raised unchanged. -/
def listen_on_endpoints (replies : Except StartExc Unit) : Except StartExc Unit := replies

/-- How `Controller._start` terminates. -/
inductive StartOutcome
  | phaseStart
  | startFail
  | escaped (e : StartExc)
  deriving Repr, DecidableEq

/-- Embeds `Controller._start`: run description, optional TLS setup and
optional listen in sequence; on success, `_set_phase('START')` posts the
`START` event; a `ControllerException` from any step posts `STARTFAIL`
then `EXIT`; any other exception escapes the task and posts nothing. The
second component is the list of synthetic events posted. -/
def start_run (desc : Except StartExc DescResult)
    (security : Option (Except StartExc Nat))
    (listen : Option (Except StartExc Unit)) : StartOutcome × List String :=
  let body : Except StartExc Unit := do
    let _ ← get_description desc
    match security with
    | some r => let _ ← configure_tls r
    | none => pure ()
    match listen with
    | some r => let _ ← listen_on_endpoints r
    | none => pure ()
  match body with
  | .ok _ => (.phaseStart, ["START"])
  | .error e =>
    if e.isControllerException then (.startFail, ["STARTFAIL", "EXIT"])
    else (.escaped e, [])

/-- A reply frame as delivered to `_handle_xid` by `_handle_message`: a
`REPLY.`-prefixed message type, carrying the MORE flag while further
replies follow. -/
def replyEvent (payload : Nat) (more : Bool) : MsgEvent :=
  { type := some "REPLY.FLOW",
    flags := some (if more then ["MORE"] else []),
    payload := payload }

/-- The reply frames of a multi-reply request: every frame but the last
carries the MORE flag. -/
def multiEvents : List Nat → List MsgEvent
  | [] => []
  | [v] => [replyEvent v false]
  | v :: w :: rest => replyEvent v true :: multiEvents (w :: rest)

/-- Successive delivery of the reply frames of a multi-reply request for
`xid` through `_handle_xid` with no exception class (the success path of
`_handle_message`). Returns the final table and the final state of the
requester's handle object. -/
def deliverMulti (reqs : ReqTable) (xid : Nat) : List Nat → ReqTable × Option ReplyFuture
  | [] => (reqs, (lookupA reqs xid).map Prod.fst)
  | [v] =>
    let out := handle_xid reqs (replyEvent v false) xid none
    (out.reqs, out.handle)
  | v :: w :: rest =>
    let out := handle_xid reqs (replyEvent v true) xid none
    deliverMulti out.reqs xid (w :: rest)

end Pylibofp

namespace Zof

/-- A field value of a wire event (string or integer). -/
inductive JVal
  | s (v : String)
  | n (v : Nat)
  deriving Repr, DecidableEq

/-- An event record from the driver: a string-keyed map, modelled as an
association list read by first match. -/
abbrev ZEvent := List (String × JVal)

/-- String field access: `event['k']` when the value is a string. -/
def getStr (e : ZEvent) (k : String) : Option String :=
  match lookupA e k with
  | some (JVal.s v) => some v
  | _ => none

/-- Integer field access: `event['k']` when the value is an integer. -/
def getNat (e : ZEvent) (k : String) : Option Nat :=
  match lookupA e k with
  | some (JVal.n v) => some v
  | _ => none

/-- The zof `Datapath` record. Modelled from the spec where needed:
`zof/datapath.py` is not under `src/`; per the spec a datapath carries
`conn_id`, the 64-bit `dp_id` (field `id`, as read by `zof_channel_down`)
and the `closed` flag. Channel-up snapshot fields are not read by any
claim and are omitted. -/
structure Datapath where
  conn_id : Nat
  id : Nat
  closed : Bool
  deriving Repr, DecidableEq

/-- The controller's two datapath indexes. `_connections` maps `conn_id`
to the `Datapath`; `_dpids` maps `dp_id` to the same object in the source,
recorded here as the `conn_id` of that object (the shared mutable fields
live in `connections`). -/
structure ZofState where
  connections : List (Nat × Datapath)
  dpids : List (Nat × Nat)
  deriving Repr, DecidableEq

/-- Observable side effects of the controller code, in program order. -/
inductive ZAction
  | cancelDpTasks (conn_id : Nat)
  | markClosed (conn_id : Nat)
  | dispatch (event_type : String) (dp : Option Datapath) (event : ZEvent)
  | packetHook
  | portStatusHook (conn_id : Nat)
  | logException
  | cancelAllTasks
  | waitCancelled (seconds : Nat)
  | lifecycle (name : String)
  deriving Repr, DecidableEq

/-- One hexadecimal digit, as accepted by Python `int(s, 16)`. -/
def hexDigit (c : Char) : Option Nat :=
  if '0'.toNat ≤ c.toNat ∧ c.toNat ≤ '9'.toNat then some (c.toNat - '0'.toNat)
  else if 'a'.toNat ≤ c.toNat ∧ c.toNat ≤ 'f'.toNat then some (c.toNat - 'a'.toNat + 10)
  else if 'A'.toNat ≤ c.toNat ∧ c.toNat ≤ 'F'.toNat then some (c.toNat - 'A'.toNat + 10)
  else none

/-- Accumulating base-16 parse; any non-hex character fails. -/
def parseHex : List Char → Nat → Option Nat
  | [], acc => some acc
  | c :: rest, acc =>
    match hexDigit c with
    | none => none
    | some d => parseHex rest (acc * 16 + d)

/-- Embeds `int(event['datapath_id'].replace(':', ''), 16)`: strip colons
and parse as hexadecimal; an empty or malformed string raises
(`ValueError`), modelled as `none`. -/
def parse_datapath_id (s : String) : Option Nat :=
  let cs := s.data.filter (fun c => c ≠ ':')
  if cs.isEmpty then none else parseHex cs 0

/-- Embeds `zof_channel_up`: read `conn_id` and parse `datapath_id`,
assert both keys are new, create the `Datapath` and insert it into both
indexes. A missing field, malformed id, or failed assert raises, modelled
as `Except.error ()` (caught by the event loop's broad except clause). -/
def zof_channel_up (st : ZofState) (event : ZEvent) : Except Unit (ZofState × Datapath) :=
  match getNat event "conn_id", (getStr event "datapath_id").bind parse_datapath_id with
  | some cid, some dpid =>
    if (lookupA st.connections cid).isSome then .error ()
    else if (lookupA st.dpids dpid).isSome then .error ()
    else
      let dp : Datapath := { conn_id := cid, id := dpid, closed := false }
      .ok ({ connections := setA st.connections cid dp,
             dpids := setA st.dpids dpid cid }, dp)
  | _, _ => .error ()

/-- Embeds `zof_channel_down`: `pop` the connection (raising `KeyError`
when `conn_id` is missing from the event or from the table), delete the
dpid index entry, cancel the datapath's scoped tasks; when the datapath
was already closed return `none` (the caller skips dispatch), otherwise
mark it closed and return it. -/
def zof_channel_down (st : ZofState) (event : ZEvent) :
    Except Unit (ZofState × List ZAction × Option Datapath) :=
  match getNat event "conn_id" with
  | none => .error ()
  | some cid =>
    match lookupA st.connections cid with
    | none => .error ()
    | some dp =>
      match lookupA st.dpids dp.id with
      | none => .error ()
      | some _ =>
        let st1 : ZofState :=
          { connections := eraseA st.connections cid, dpids := eraseA st.dpids dp.id }
        if dp.closed then .ok (st1, [.cancelDpTasks cid], none)
        else .ok (st1, [.cancelDpTasks cid], some { dp with closed := true })

/-- Embeds `zof_find_dp`: look up the event's `conn_id` in the connection
table; a missing field or unknown id yields `None` (with a logged
warning). -/
def zof_find_dp (st : ZofState) (event : ZEvent) : Option Datapath :=
  match getNat event "conn_id" with
  | none => none
  | some cid => lookupA st.connections cid

/-- How one iteration of `zof_event_loop` ended. -/
inductive StepOut
  | dispatched
  | skipped
  | caught
  deriving Repr, DecidableEq

/-- The payload hooks run before dispatch: `Packet.zof_from_packet_in` for
`PACKET_IN`, `dp.zof_from_port_status` for `PORT_STATUS` with a known
datapath. -/
def payloadHooks (etype : String) (dp : Option Datapath) : List ZAction :=
  if etype = "PACKET_IN" then [.packetHook]
  else if etype = "PORT_STATUS" then
    match dp with
    | some d => [.portStatusHook d.conn_id]
    | none => []
  else []

/-- Embeds one iteration of `zof_event_loop`: bookkeeping by event type,
skipping dispatch for force-closed datapaths, then dispatch; any exception
raised in the iteration is caught, logged, and the loop continues. -/
def zof_event_loop_step (st : ZofState) (event : ZEvent) :
    ZofState × List ZAction × StepOut :=
  match getStr event "type" with
  | none => (st, [.logException], .caught)
  | some etype =>
    if etype = "CHANNEL_UP" then
      match zof_channel_up st event with
      | .error _ => (st, [.logException], .caught)
      | .ok (st1, dp) => (st1, [.dispatch etype (some dp) event], .dispatched)
    else if etype = "CHANNEL_DOWN" then
      match zof_channel_down st event with
      | .error _ => (st, [.logException], .caught)
      | .ok (st1, acts, none) => (st1, acts, .skipped)
      | .ok (st1, acts, some dp) =>
        (st1, acts ++ [.dispatch etype (some dp) event], .dispatched)
    else
      match zof_find_dp st event with
      | some d =>
        if d.closed then (st, [], .skipped)
        else (st, payloadHooks etype (some d) ++ [.dispatch etype (some d) event], .dispatched)
      | none =>
        (st, payloadHooks etype none ++ [.dispatch etype none event], .dispatched)

/-- The event loop run over a finite queue of events, concatenating the
per-iteration action traces. -/
def zof_event_loop (st : ZofState) : List ZEvent → ZofState × List ZAction
  | [] => (st, [])
  | e :: rest =>
    let s1 := zof_event_loop_step st e
    let s2 := zof_event_loop s1.1 rest
    (s2.1, s1.2.1 ++ s2.2)

/-- An app as seen by `Controller.on_exception`: whether `getattr(app,
'on_exception', None)` yields a truthy handler. -/
structure App where
  name : String
  hasExcHandler : Bool
  deriving Repr, DecidableEq

/-- Where an exception was routed. -/
inductive ExcRoute
  | handledBy (i : Nat)
  | logged
  deriving Repr, DecidableEq

/-- The `for ... else` loop of `Controller.on_exception`, carrying the
index of the app under consideration: the first app with a truthy
`on_exception` handles the exception and the loop breaks; if none has
one, the exception is logged. -/
def on_exception_from (i : Nat) : List App → ExcRoute
  | [] => .logged
  | app :: rest =>
    if app.hasExcHandler then .handledBy i else on_exception_from (i + 1) rest

/-- Embeds `Controller.on_exception`. -/
def on_exception (apps : List App) : ExcRoute := on_exception_from 0 apps

/-- Embeds `_channel_down()`: the synthetic, minimal channel-down event
consisting only of its type. -/
def channel_down_event : ZEvent := [("type", .s "CHANNEL_DOWN")]

/-- Modelled from the spec: `zof/datapath.py` is not under `src/`.
`Datapath.close(force=True)` sets the `closed` flag, cancels the
datapath's scoped tasks, and dispatches the synthetic channel-down (the
one channel-down the spec's law says apps observe). The connection stays
in both indexes until the backend's real `CHANNEL_DOWN` arrives. -/
def close_force (st : ZofState) (cid : Nat) : ZofState × List ZAction :=
  match lookupA st.connections cid with
  | none => (st, [])
  | some dp =>
    ({ st with connections := updateA st.connections cid { dp with closed := true } },
      [.markClosed cid, .cancelDpTasks cid,
        .dispatch "CHANNEL_DOWN" (some { dp with closed := true }) channel_down_event])

/-- The backend's natural `CHANNEL_DOWN` notification for a connection. -/
def natural_down (cid : Nat) : ZEvent :=
  [("type", .s "CHANNEL_DOWN"), ("conn_id", .n cid)]

/-- The action trace of a force-close followed by the backend's natural
`CHANNEL_DOWN` processed by the event loop. -/
def forced_down_trace (st : ZofState) (cid : Nat) (event : ZEvent) :
    ZofState × List ZAction :=
  let c := close_force st cid
  let s := zof_event_loop_step c.1 event
  (s.1, c.2 ++ s.2.1)

/-- Number of `CHANNEL_DOWN` dispatches in a trace. -/
def countChannelDown (acts : List ZAction) : Nat :=
  (acts.filter (fun a =>
    match a with
    | .dispatch t _ _ => t = "CHANNEL_DOWN"
    | _ => false)).length

/-- The per-datapath body of `zof_cleanup`, iterating the connection
table in order: each datapath not yet closed is marked closed, has its
scoped tasks cancelled, and has the synthetic channel-down dispatched to
its handlers. -/
def cleanup_actions : List (Nat × Datapath) → List ZAction
  | [] => []
  | (cid, dp) :: rest =>
    (if dp.closed then []
     else
       [.markClosed cid, .cancelDpTasks cid,
         .dispatch "CHANNEL_DOWN" (some { dp with closed := true }) channel_down_event])
      ++ cleanup_actions rest

/-- Embeds `zof_cleanup`: close every still-open datapath as above, then
cancel all remaining controller tasks and wait up to 3 seconds for them. -/
def zof_cleanup (st : ZofState) : ZofState × List ZAction :=
  let conns := st.connections.map
    (fun p => (p.1, if p.2.closed then p.2 else { p.2 with closed := true }))
  ({ st with connections := conns },
    cleanup_actions st.connections ++ [.cancelAllTasks, .waitCancelled 3])

/-- The tail of `Controller.run` after the event loop returns:
`zof_cleanup` is awaited before the `STOP` lifecycle notification is
delivered to apps. -/
def run_shutdown (st : ZofState) : List ZAction :=
  (zof_cleanup st).2 ++ [.lifecycle "STOP"]

end Zof

namespace Pylibofp

/-- C1: the claim says every start-time failure (unsupported backend API
major version, TLS identity install failure, listen failure) aborts start
and posts `STARTFAIL` then `EXIT`. The code is wrong for the first case:
a description reply with `major_version = 2` makes `_get_description`
raise the builtin `ValueError`, which the `except ControllerException`
clause of `_start` does not catch, so no event is posted and the start
task dies silently; a TLS install failure, by contrast, does post
`STARTFAIL` then `EXIT`. -/
theorem start_unsupported_api_escapes :
    start_run (.ok { major_version := 2, minor_version := 0,
                     ofp_versions := [4], software_version := "libofp" }) none none
      = (.escaped (.valueError "Unsupported API version"), [])
    ∧ start_run (.ok { major_version := 1, minor_version := 0,
                       ofp_versions := [4], software_version := "libofp" })
        (some (.error (.controllerExc "tls"))) none
      = (.startFail, ["STARTFAIL", "EXIT"]) := by decide

/-- C2: code bug — the timeout sweep `_idle` removes a timed-out xid from
the request table without marking the handle done: for a handle registered
at xid 9000 with expiration 5, sweeping at time 10 leaves the table empty
while the handle's `_done` flag is still `false`, although the claim
requires every removal from the table to mark the handle done. -/
theorem idle_sweep_removes_without_done :
    (idle [(9000, ReplyFuture.fresh 9000, 5)] 10).1 = []
    ∧ ((idle [(9000, ReplyFuture.fresh 9000, 5)] 10).2.map
        (fun p => p.2.done_flag)) = [false] := by decide

/-- C5: code bug — a timed-out handle is distinguishable from one that
received a backend error. Both raise on the first `await`, but after the
exception is consumed, the error-delivered handle has `_done = true` and
its next `await` raises `InvalidStateError`, while the timed-out handle
still has `_done = false` and its next `await` installs a future and
suspends forever (`_idle` never calls `set_done`). -/
theorem timeout_not_equivalent_to_error :
    ((handle_xid [(9000, ReplyFuture.fresh 9000, 5)]
        { type := some "ERROR", flags := none, payload := 1 } 9000 (some .err)).handle.map
        (fun h => (awaitSeq h 2, h.done_flag)))
      = some ([.raises (.ErrorException { type := some "ERROR", flags := none, payload := 1 }),
               .invalidState], true)
    ∧ ((idle [(9000, ReplyFuture.fresh 9000, 5)] 10).2.map
        (fun p => (awaitSeq p.2 2, p.2.done_flag)))
      = [([.raises (.TimeoutException 9000), .suspended], false)] := by decide

/-- C3 counterexample: on the `PRESTART → START` transition the claim says
the tasks scoped to `PRESTART` are cancelled; in the code `_set_phase`
skips `_cancel_tasks` exactly when the previous phase is `PRESTART`, so
task 1 scoped to `PRESTART` receives no cancel call on this transition. -/
theorem set_phase_from_prestart_cancels_nothing :
    1 ∈ scopeTasks [("PRESTART", [1])] "PRESTART"
    ∧ (set_phase { phase := "PRESTART", tasks := [("PRESTART", [1])],
                   queueExists := true } "START").cancelled = [] := by decide

/-- C3 amended: tasks scoped to the previous phase are cancelled on every
phase transition whose previous phase is not `PRESTART` (that is, on
INIT→PRESTART, START→STOP and STOP→POSTSTOP) before the new phase begins;
on the PRESTART→START transition no task is cancelled. -/
theorem set_phase_cancels_prev_unless_prestart (st : PhaseSt) (p : String) :
    (st.phase ≠ "PRESTART" →
      ∀ t ∈ scopeTasks st.tasks st.phase, t ∈ (set_phase st p).cancelled)
    ∧ (st.phase = "PRESTART" → (set_phase st p).cancelled = []) := by
  constructor
  · intro h t ht
    have hc : (set_phase st p).cancelled = cancel_tasks st.tasks st.phase := by
      simp [set_phase, h]
    rw [hc]
    unfold cancel_tasks
    exact List.mem_append_right _ ht
  · intro h
    simp [set_phase, h]

/-- C3 witness: on the START→STOP transition, task 5 scoped to START is
cancelled; on the PRESTART→START transition nothing is cancelled. -/
theorem set_phase_cancels_prev_unless_prestart_witness :
    5 ∈ (set_phase { phase := "START", tasks := [("START", [5])],
                     queueExists := true } "STOP").cancelled
    ∧ (set_phase { phase := "PRESTART", tasks := [("PRESTART", [1])],
                   queueExists := true } "START").cancelled = [] :=
  ⟨(set_phase_cancels_prev_unless_prestart _ "STOP").1 (by decide) 5 (by decide),
   (set_phase_cancels_prev_unless_prestart _ "START").2 (by decide)⟩

/-- C4 counterexample: the first call to `_next_xid` (counter initialised
to `_MIN_XID = 8092`) pre-increments and returns 8093, not 8092. -/
theorem first_assigned_xid_not_8092 :
    (next_xid init_xid).2 = 8093 ∧ (next_xid init_xid).2 ≠ 8092 := by decide

/-- C4 amended: the xid counter starts at 8092 and each call
pre-increments, so the first assigned user xid is 8093; below `_MAX_XID`
each call assigns the previous counter value plus one; when the counter
reaches `_MAX_XID = 2^32 - 1`, the next call wraps and assigns 8092. -/
theorem next_xid_spec (x : Nat) :
    (next_xid init_xid).2 = 8093
    ∧ (MIN_XID ≤ x → x < MAX_XID → next_xid x = (x + 1, x + 1))
    ∧ next_xid MAX_XID = (MIN_XID, MIN_XID) := by
  refine ⟨by decide, fun _ hlt => ?_, by decide⟩
  unfold next_xid
  rw [if_neg (Nat.ne_of_lt hlt)]

/-- C4 witness: at counter value 9000 the next assigned xid is 9001. -/
theorem next_xid_spec_witness : next_xid 9000 = (9001, 9001) :=
  (next_xid_spec 9000).2.1 (by decide) (by decide)

/-- A reply frame carries a MORE continuation exactly when built with the
MORE flag. -/
theorem event_has_more_replyEvent (p : Nat) (m : Bool) :
    event_has_more (replyEvent p m) = m := by
  cases m <;> rfl

/-- Evolution of a handle alone in the table as the frames of a
multi-reply request are delivered through `_handle_xid`: the FIFO
accumulates the frames in order, the final frame sets the done flag, and
the xid leaves the table. -/
theorem deliverMulti_cons (xid exp v : Nat) (rest : List Nat) :
    ∀ acc : List Res,
      deliverMulti [(xid, ⟨xid, acc, false, false⟩, exp)] xid (v :: rest)
        = ([], some ⟨xid, acc ++ (multiEvents (v :: rest)).map Res.value, false, true⟩) := by
  induction rest generalizing v with
  | nil =>
    intro acc
    simp [deliverMulti, handle_xid, lookupA, multiEvents, event_has_more_replyEvent,
      ReplyFuture.set_result, ReplyFuture.set_done, eraseA]
  | cons w ws ih =>
    intro acc
    have step : handle_xid [(xid, ⟨xid, acc, false, false⟩, exp)]
        (replyEvent v true) xid none
        = { reqs := [(xid, ⟨xid, acc ++ [.value (replyEvent v true)], false, false⟩, exp)],
            found := true,
            handle := some ⟨xid, acc ++ [.value (replyEvent v true)], false, false⟩,
            delivered := some .toFifo } := by
      simp [handle_xid, lookupA, event_has_more_replyEvent, ReplyFuture.set_result, updateA]
    rw [deliverMulti, step]
    dsimp only
    have ih' := ih w (acc ++ [Res.value (replyEvent v true)])
    rw [ih']
    simp [multiEvents]

/-- The multi-reply frame list has one frame per reply value. -/
theorem multiEvents_length (vs : List Nat) : (multiEvents vs).length = vs.length := by
  induction vs with
  | nil => rfl
  | cons v rest ih =>
    cases rest with
    | nil => rfl
    | cons w ws => simp only [multiEvents, List.length_cons] at ih ⊢; omega

/-- Awaiting a done handle drains its FIFO in order and then raises
`InvalidStateError`. -/
theorem awaitSeq_done_handle (xid : Nat) (rs : List Res) :
    awaitSeq ⟨xid, rs, false, true⟩ (rs.length + 1)
      = rs.map immediate_result ++ [.invalidState] := by
  induction rs with
  | nil => rfl
  | cons r rest ih =>
    simpa [awaitSeq, ReplyFuture.awaitOne] using ih

/-- C6: a handle whose FIFO is empty and whose done flag is set fails the
next `await` with `InvalidStateError`; and a multi-reply request that
received its N reply frames (MORE on all but the last) yields exactly
those N frames in delivery order under repeated `await`, with the
(N+1)-th `await` raising `InvalidStateError`. -/
theorem multi_reply_iteration (vs : List Nat) (hne : vs ≠ []) (xid exp : Nat) :
    (∀ f : ReplyFuture, f.results = [] → f.done_flag = true →
      (f.awaitOne).2 = .invalidState)
    ∧ (deliverMulti [(xid, ReplyFuture.fresh xid, exp)] xid vs).2.map
        (fun h => awaitSeq h (vs.length + 1))
      = some ((multiEvents vs).map AwaitOutcome.result ++ [.invalidState]) := by
  constructor
  · intro f h1 h2
    obtain ⟨x, rs, fu, dn⟩ := f
    simp only at h1 h2
    subst h1; subst h2
    rfl
  · obtain ⟨v, rest, rfl⟩ := List.exists_cons_of_ne_nil hne
    have hd := deliverMulti_cons xid exp v rest []
    rw [show ReplyFuture.fresh xid = ⟨xid, [], false, false⟩ from rfl, hd]
    have hlen : ((multiEvents (v :: rest)).map Res.value).length = (v :: rest).length := by
      rw [List.length_map, multiEvents_length]
    simp only [List.nil_append, Option.map_some']
    rw [← hlen, awaitSeq_done_handle, List.map_map]
    congr 1

/-- C6 witness: three replies (MORE, MORE, final) yield the three frames
in order and a fourth await raises `InvalidStateError`. -/
theorem multi_reply_iteration_witness :
    (deliverMulti [(77, ReplyFuture.fresh 77, 20)] 77 [1, 2, 3]).2.map
        (fun h => awaitSeq h ([1, 2, 3].length + 1))
      = some ((multiEvents [1, 2, 3]).map AwaitOutcome.result ++ [.invalidState]) :=
  (multi_reply_iteration [1, 2, 3] (by decide) 77 20).2

end Pylibofp

/-- Looking up a key after erasing it fails. -/
theorem lookupA_eraseA_self {κ α : Type} [DecidableEq κ] (l : List (κ × α)) (k : κ) :
    lookupA (eraseA l k) k = none := by
  induction l with
  | nil => rfl
  | cons p rest ih =>
    obtain ⟨k', v⟩ := p
    by_cases h : k' = k
    · simpa [eraseA, h] using ih
    · simp [eraseA, h, lookupA, ih]

/-- Updating a present key is visible to a lookup of that key. -/
theorem lookupA_updateA_self {κ α : Type} [DecidableEq κ] (l : List (κ × α)) (k : κ) (v w : α)
    (h : lookupA l k = some w) : lookupA (updateA l k v) k = some v := by
  induction l with
  | nil => simp [lookupA] at h
  | cons p rest ih =>
    obtain ⟨k', u⟩ := p
    by_cases hk : k' = k
    · simp [updateA, hk, lookupA]
    · simp only [updateA, hk, lookupA, if_false, if_neg hk] at h ⊢
      exact ih h

namespace Zof

/-- C7: when a datapath has been force-closed before the backend's natural
`CHANNEL_DOWN` arrives, the event loop performs the bookkeeping (removal
from both indexes, task cancellation) but skips dispatch, so the combined
trace contains exactly one `CHANNEL_DOWN` dispatch — the synthetic one
emitted at force-close time. -/
theorem forced_close_single_down (st : ZofState) (cid : Nat) (dp : Datapath)
    (hconn : lookupA st.connections cid = some dp)
    (hopen : dp.closed = false)
    (hdpid : lookupA st.dpids dp.id = some cid) :
    countChannelDown (forced_down_trace st cid (natural_down cid)).2 = 1
    ∧ (zof_event_loop_step (close_force st cid).1 (natural_down cid)).2.2 = .skipped
    ∧ lookupA (forced_down_trace st cid (natural_down cid)).1.connections cid = none
    ∧ lookupA (forced_down_trace st cid (natural_down cid)).1.dpids dp.id = none
    ∧ ZAction.cancelDpTasks cid ∈ (forced_down_trace st cid (natural_down cid)).2 := by
  have hty : getStr (natural_down cid) "type" = some "CHANNEL_DOWN" := rfl
  have hco : getNat (natural_down cid) "conn_id" = some cid := rfl
  have hclose : close_force st cid
      = ({ st with connections := updateA st.connections cid { dp with closed := true } },
         [.markClosed cid, .cancelDpTasks cid,
          .dispatch "CHANNEL_DOWN" (some { dp with closed := true }) channel_down_event]) := by
    simp only [close_force, hconn]
  have hlook : lookupA (updateA st.connections cid { dp with closed := true }) cid
      = some { dp with closed := true } := lookupA_updateA_self _ _ _ _ hconn
  have hcd : zof_channel_down
        { st with connections := updateA st.connections cid { dp with closed := true } }
        (natural_down cid)
      = .ok (⟨eraseA (updateA st.connections cid { dp with closed := true }) cid,
              eraseA st.dpids dp.id⟩,
             [.cancelDpTasks cid], none) := by
    simp only [zof_channel_down, hco, hlook, hdpid]
    simp
  have hstep : zof_event_loop_step
      { st with connections := updateA st.connections cid { dp with closed := true } }
      (natural_down cid)
      = (⟨eraseA (updateA st.connections cid { dp with closed := true }) cid,
           eraseA st.dpids dp.id⟩, [.cancelDpTasks cid], .skipped) := by
    simp only [zof_event_loop_step, hty]
    simp [hcd]
  refine ⟨?_, ?_, ?_, ?_, ?_⟩
  · simp [forced_down_trace, hclose, hstep, countChannelDown, channel_down_event]
  · simp [hclose, hstep]
  · simp [forced_down_trace, hclose, hstep, lookupA_eraseA_self]
  · simp [forced_down_trace, hclose, hstep, lookupA_eraseA_self]
  · simp [forced_down_trace, hclose, hstep]

/-- C7 witness: one open datapath (conn 7, dpid 1) force-closed, then the
natural channel-down: one observable channel-down, bookkeeping done. -/
theorem forced_close_single_down_witness :
    countChannelDown (forced_down_trace ⟨[(7, ⟨7, 1, false⟩)], [(1, 7)]⟩ 7 (natural_down 7)).2 = 1
    ∧ (zof_event_loop_step (close_force ⟨[(7, ⟨7, 1, false⟩)], [(1, 7)]⟩ 7).1
        (natural_down 7)).2.2 = .skipped
    ∧ lookupA (forced_down_trace ⟨[(7, ⟨7, 1, false⟩)], [(1, 7)]⟩ 7
        (natural_down 7)).1.connections 7 = none
    ∧ lookupA (forced_down_trace ⟨[(7, ⟨7, 1, false⟩)], [(1, 7)]⟩ 7
        (natural_down 7)).1.dpids (Datapath.mk 7 1 false).id = none
    ∧ ZAction.cancelDpTasks 7 ∈ (forced_down_trace ⟨[(7, ⟨7, 1, false⟩)], [(1, 7)]⟩ 7
        (natural_down 7)).2 :=
  forced_close_single_down ⟨[(7, ⟨7, 1, false⟩)], [(1, 7)]⟩ 7 ⟨7, 1, false⟩
    (by decide) (by decide) (by decide)

/-- C8: a `CHANNEL_DOWN` whose `conn_id` is not in the connection table
makes the unguarded `pop` raise `KeyError`; the event loop catches the
exception, logs it, dispatches the event to no handler, and continues
with the next event rather than terminating. -/
theorem unknown_conn_down_caught (st : ZofState) (cid : Nat) (rest : List ZEvent)
    (habs : lookupA st.connections cid = none) :
    zof_event_loop_step st (natural_down cid) = (st, [.logException], .caught)
    ∧ zof_event_loop st (natural_down cid :: rest)
      = ((zof_event_loop st rest).1, .logException :: (zof_event_loop st rest).2) := by
  have hty : getStr (natural_down cid) "type" = some "CHANNEL_DOWN" := rfl
  have hco : getNat (natural_down cid) "conn_id" = some cid := rfl
  have hcd : zof_channel_down st (natural_down cid) = .error () := by
    simp only [zof_channel_down, hco, habs]
  have hstep : zof_event_loop_step st (natural_down cid) = (st, [.logException], .caught) := by
    simp only [zof_event_loop_step, hty]
    simp [hcd]
  refine ⟨hstep, ?_⟩
  simp [zof_event_loop, hstep]

/-- C8 witness: an empty connection table and a `CHANNEL_DOWN` for conn 3:
the iteration is caught and the (empty) remainder of the queue is still
processed. -/
theorem unknown_conn_down_caught_witness :
    zof_event_loop_step ⟨[], []⟩ (natural_down 3) = (⟨[], []⟩, [.logException], .caught)
    ∧ zof_event_loop ⟨[], []⟩ (natural_down 3 :: [])
      = ((zof_event_loop ⟨[], []⟩ []).1, .logException :: (zof_event_loop ⟨[], []⟩ []).2) :=
  unknown_conn_down_caught ⟨[], []⟩ 3 [] (by decide)

/-- Offsetting the running index of the handler search shifts the
reported handler index by the same amount. -/
theorem on_exception_from_add (base : Nat) (apps : List App) :
    on_exception_from base apps
      = match on_exception_from 0 apps with
        | .handledBy j => .handledBy (base + j)
        | .logged => .logged := by
  induction apps generalizing base with
  | nil => rfl
  | cons a rest ih =>
    by_cases h : a.hasExcHandler = true
    · simp [on_exception_from, h]
    · simp only [on_exception_from, h, if_false]
      rw [ih (base + 1), ih 1]
      cases h0 : on_exception_from 0 rest with
      | handledBy j => simp [Nat.add_assoc]
      | logged => simp

/-- C9: an exception raised by a handler is routed to the `on_exception`
of exactly the first app (in registration order) that defines one — all
apps before it lack a handler, and apps after it never see the
exception — and is logged instead when no app defines one. -/
theorem on_exception_first_app (apps : List App) :
    (∀ j, on_exception apps = .handledBy j →
      (∃ aj, apps[j]? = some aj ∧ aj.hasExcHandler = true)
        ∧ ∀ a ∈ apps.take j, a.hasExcHandler = false)
    ∧ (on_exception apps = .logged ↔ ∀ a ∈ apps, a.hasExcHandler = false) := by
  induction apps with
  | nil =>
    constructor
    · intro j h
      simp [on_exception, on_exception_from] at h
    · simp [on_exception, on_exception_from]
  | cons a rest ih =>
    by_cases h : a.hasExcHandler = true
    · have hroute : on_exception (a :: rest) = .handledBy 0 := by
        simp [on_exception, on_exception_from, h]
      constructor
      · intro j hj
        rw [hroute] at hj
        injection hj with hj0
        subst hj0
        exact ⟨⟨a, by simp, h⟩, by simp⟩
      · rw [hroute]
        constructor
        · intro hfalse
          cases hfalse
        · intro hall
          exact absurd (hall a (List.mem_cons_self a rest)) (by simp [h])
    · have hshift : on_exception (a :: rest)
          = match on_exception rest with
            | .handledBy j' => .handledBy (1 + j')
            | .logged => .logged := by
        simp only [on_exception, on_exception_from, h, if_false]
        exact on_exception_from_add 1 rest
      constructor
      · intro j hj
        rw [hshift] at hj
        cases hr : on_exception rest with
        | logged =>
          rw [hr] at hj
          cases hj
        | handledBy j' =>
          rw [hr] at hj
          injection hj with hj1
          have hj2 : j = j' + 1 := by omega
          subst hj2
          obtain ⟨⟨aj, hget, haj⟩, htake⟩ := ih.1 j' hr
          refine ⟨⟨aj, by simpa using hget, haj⟩, ?_⟩
          intro b hb
          rw [List.take_succ_cons] at hb
          rcases List.mem_cons.mp hb with hba | hbt
          · subst hba
            simpa using h
          · exact htake b hbt
      · rw [hshift]
        cases hr : on_exception rest with
        | handledBy j' =>
          constructor
          · intro hfalse
            cases hfalse
          · intro hall
            have : on_exception rest = .logged :=
              ih.2.mpr (fun b hb => hall b (List.mem_cons_of_mem a hb))
            rw [hr] at this
            cases this
        | logged =>
          constructor
          · intro _
            intro b hb
            rcases List.mem_cons.mp hb with hba | hbt
            · subst hba
              simpa using h
            · exact ih.2.mp hr b hbt
          · intro _
            rfl

/-- C9 witness: with apps [no handler, handler, handler], the exception is
routed to the second app (index 1); the app before it lacks a handler. -/
theorem on_exception_first_app_witness :
    (∃ aj, ([⟨"app0", false⟩, ⟨"app1", true⟩, ⟨"app2", true⟩] : List App)[1]? = some aj
        ∧ aj.hasExcHandler = true)
    ∧ ∀ a ∈ ([⟨"app0", false⟩, ⟨"app1", true⟩, ⟨"app2", true⟩] : List App).take 1,
        a.hasExcHandler = false :=
  (on_exception_first_app [⟨"app0", false⟩, ⟨"app1", true⟩, ⟨"app2", true⟩]).1 1 (by decide)

/-- The cleanup loop body contains, for each open datapath in the table,
its mark-closed, cancel-tasks, dispatch-synthetic-channel-down triple, in
table order. -/
theorem cleanup_actions_decomp (conns : List (Nat × Datapath)) (cid : Nat) (dp : Datapath)
    (h : lookupA conns cid = some dp) (hopen : dp.closed = false) :
    ∃ pre mid, cleanup_actions conns
      = pre ++ [.markClosed cid, .cancelDpTasks cid,
          .dispatch "CHANNEL_DOWN" (some { dp with closed := true }) channel_down_event]
        ++ mid := by
  induction conns with
  | nil => simp [lookupA] at h
  | cons p rest ih =>
    obtain ⟨k, d⟩ := p
    by_cases hk : k = cid
    · subst hk
      have hd : d = dp := by simpa [lookupA] using h
      subst hd
      refine ⟨[], cleanup_actions rest, ?_⟩
      simp [cleanup_actions, hopen]
    · have h' : lookupA rest cid = some dp := by
        simpa [lookupA, hk] using h
      obtain ⟨pre, mid, hpm⟩ := ih h'
      refine ⟨(if d.closed then [] else [.markClosed k, .cancelDpTasks k,
        .dispatch "CHANNEL_DOWN" (some { d with closed := true }) channel_down_event])
          ++ pre, mid, ?_⟩
      simp [cleanup_actions, hpm, List.append_assoc]

/-- After the cleanup loop, a datapath found in the table is recorded
closed. -/
theorem lookupA_cleanup_map (conns : List (Nat × Datapath)) (cid : Nat) (dp : Datapath)
    (h : lookupA conns cid = some dp) :
    lookupA (conns.map
        (fun p => (p.1, if p.2.closed then p.2 else { p.2 with closed := true }))) cid
      = some (if dp.closed then dp else { dp with closed := true }) := by
  induction conns with
  | nil => simp [lookupA] at h
  | cons p rest ih =>
    obtain ⟨k, d⟩ := p
    by_cases hk : k = cid
    · subst hk
      have hd : d = dp := by simpa [lookupA] using h
      subst hd
      simp [lookupA]
    · have h' : lookupA rest cid = some dp := by
        simpa [lookupA, hk] using h
      simp [lookupA, hk, ih h']

/-- C10: during shutdown cleanup — which `run` awaits before delivering
the `STOP` lifecycle notification — every datapath still in the
connection table whose closed flag is false is marked closed, has its
scoped tasks cancelled, and has the synthetic event consisting only of
`type: CHANNEL_DOWN` dispatched to its handlers; after the loop, all
remaining controller tasks are cancelled and awaited for up to 3
seconds. -/
theorem cleanup_closes_open_datapaths (st : ZofState) (cid : Nat) (dp : Datapath)
    (hconn : lookupA st.connections cid = some dp) (hopen : dp.closed = false) :
    (∃ pre mid, (zof_cleanup st).2
        = pre ++ [.markClosed cid, .cancelDpTasks cid,
            .dispatch "CHANNEL_DOWN" (some { dp with closed := true }) channel_down_event]
          ++ mid ++ [.cancelAllTasks, .waitCancelled 3])
    ∧ lookupA (zof_cleanup st).1.connections cid = some { dp with closed := true }
    ∧ run_shutdown st = (zof_cleanup st).2 ++ [.lifecycle "STOP"] := by
  refine ⟨?_, ?_, rfl⟩
  · obtain ⟨pre, mid, hpm⟩ := cleanup_actions_decomp st.connections cid dp hconn hopen
    refine ⟨pre, mid, ?_⟩
    simp [zof_cleanup, hpm, List.append_assoc]
  · have hm := lookupA_cleanup_map st.connections cid dp hconn
    rw [hopen] at hm
    simp only [if_false] at hm
    simpa [zof_cleanup] using hm

/-- C10 witness: a table with one open datapath (conn 2, dpid 9): cleanup
emits its close triple before the final cancel-and-wait, records it
closed, and precedes the STOP notification. -/
theorem cleanup_closes_open_datapaths_witness :
    (∃ pre mid, (zof_cleanup ⟨[(2, ⟨2, 9, false⟩)], [(9, 2)]⟩).2
        = pre ++ [.markClosed 2, .cancelDpTasks 2,
            .dispatch "CHANNEL_DOWN" (some { Datapath.mk 2 9 false with closed := true })
              channel_down_event]
          ++ mid ++ [.cancelAllTasks, .waitCancelled 3])
    ∧ lookupA (zof_cleanup ⟨[(2, ⟨2, 9, false⟩)], [(9, 2)]⟩).1.connections 2
        = some { Datapath.mk 2 9 false with closed := true }
    ∧ run_shutdown ⟨[(2, ⟨2, 9, false⟩)], [(9, 2)]⟩
        = (zof_cleanup ⟨[(2, ⟨2, 9, false⟩)], [(9, 2)]⟩).2 ++ [.lifecycle "STOP"] :=
  cleanup_closes_open_datapaths ⟨[(2, ⟨2, 9, false⟩)], [(9, 2)]⟩ 2 ⟨2, 9, false⟩
    (by decide) (by decide)

end Zof
